import Mathlib

/-!
Verification of the authentication primitive of the
legenerateurdigital backend (src/main.py): password hashing with
bcrypt-style truncation and salting, and JWT-style token issuance
and verification.

Conventions of the embedding:
* Strings are Lean strings; the UTF-8 byte encoding of a password is
  an explicit list of bytes (`utf8Bytes`).
* The bcrypt core (the one-way key derivation applied to a salt and a
  truncated password) lives in the external bcrypt library, not in the
  repository, so every definition and theorem is parametric in an
  arbitrary core function `core : Nat → List UInt8 → List UInt8`; the
  repository-level properties hold for every choice of core.
* The JWT encode/decode primitives live in the external python-jose
  library, not in the repository; they are modelled from the spec
  (see `jwtDecode`). A signed token records the payload and the secret
  it was signed under; signature verification is modelled as equality
  of that secret with the current process secret.
* Wall-clock time is an integer count of seconds.
-/

namespace LGD

/-- UTF-8 byte encoding of a string, as the Python expression
`password.encode("utf-8")` produces it. -/
def utf8Bytes (s : String) : List UInt8 :=
  s.data.flatMap (fun c => String.utf8EncodeChar c)

/-- Model of a bcrypt-encoded hash value: bcrypt embeds the random salt
in the encoded output next to the digest, so the encoded value is
faithfully a pair of the salt and the digest the core computed from
that salt and the (already truncated) password bytes. -/
structure BcryptCred where
  salt : Nat
  digest : List UInt8
deriving DecidableEq, Repr

/-- A stored credential string as `verify_password` receives it: either
a well-formed bcrypt encoding or an arbitrary malformed string (on
which the bcrypt library raises). -/
inductive Credential where
  | wellFormed (c : BcryptCred)
  | malformed (raw : String)
deriving DecidableEq, Repr

/-- Model of `bcrypt.hashpw(pwBytes, salt)`: derive the digest from the
salt and the password bytes with the abstract core and embed the salt
in the encoded result. -/
def hashpw (core : Nat → List UInt8 → List UInt8)
    (pwBytes : List UInt8) (salt : Nat) : BcryptCred :=
  ⟨salt, core salt pwBytes⟩

/-- Model of `bcrypt.checkpw(pwBytes, stored)`: recompute the digest
from the salt embedded in the stored value and compare. -/
def checkpw (core : Nat → List UInt8 → List UInt8)
    (pwBytes : List UInt8) (stored : BcryptCred) : Bool :=
  core stored.salt pwBytes == stored.digest

/-- The error raised by `get_password_hash` on an empty password
(a `ValueError` in the source, `InvalidInputError` in the spec). -/
inductive InvalidInputError where
  | invalidInput
deriving DecidableEq, Repr

/-- Embedding of `get_password_hash` (src/main.py lines 112-119):
reject an empty password, truncate the UTF-8 bytes to 72, hash with a
fresh salt (the salt drawn by `bcrypt.gensalt()` is an explicit
parameter). -/
def get_password_hash (core : Nat → List UInt8 → List UInt8)
    (salt : Nat) (password : String) : Except InvalidInputError Credential :=
  if password = "" then
    .error .invalidInput
  else
    .ok (.wellFormed (hashpw core ((utf8Bytes password).take 72) salt))

/-- Embedding of `verify_password` (src/main.py lines 122-129):
truncate the candidate to 72 bytes and check it with bcrypt; any
exception raised inside (modelled by a malformed stored credential) is
caught and turned into `false`. -/
def verify_password (core : Nat → List UInt8 → List UInt8)
    (plain_password : String) (hashed_password : Credential) : Bool :=
  match hashed_password with
  | .wellFormed c => checkpw core ((utf8Bytes plain_password).take 72) c
  | .malformed _ => false

/-- A concrete bcrypt core used only to instantiate witnesses. -/
def sampleCore (salt : Nat) (pwBytes : List UInt8) : List UInt8 :=
  UInt8.ofNat salt :: pwBytes

/-! ## Token authority -/

/-- Decoded JWT payload as the repository uses it: an optional subject
claim and an optional expiry claim (a Python dict may lack either
key). -/
structure Payload where
  sub : Option String
  exp : Option Int
deriving DecidableEq, Repr

/-- A presented token string: either structurally malformed, or a
payload signed under some secret. -/
inductive JwtToken where
  | malformed (raw : String)
  | signed (payload : Payload) (sigSecret : String)
deriving DecidableEq, Repr

/-- The single undifferentiated decode error of the JWT library
(`JWTError` in python-jose). -/
inductive JWTError where
  | jwtError
deriving DecidableEq, Repr

/-- Modelled from the spec: `jwt.encode(payload, secret, HS256)` of the
external python-jose library, which is not part of the repository
sources. Signing attaches the secret to the payload. -/
def jwtEncode (payload : Payload) (secret : String) : JwtToken :=
  .signed payload secret

/-- Modelled from the spec: `jwt.decode(token, secret, [HS256])` of the
external python-jose library, which is not part of the repository
sources. Per the spec, decoding fails if the encoding is malformed, if
the signature does not verify against the current secret, or if the
embedded expiry is at or before the current time; a payload without an
expiry claim is not expiry-checked. -/
def jwtDecode (now : Int) (secret : String) (t : JwtToken) :
    Except JWTError Payload :=
  match t with
  | .malformed _ => .error .jwtError
  | .signed p s =>
    if s ≠ secret then .error .jwtError
    else
      match p.exp with
      | some e => if e ≤ now then .error .jwtError else .ok p
      | none => .ok p

/-- Embedding of the constant `ACCESS_TOKEN_EXPIRE_MINUTES`
(src/main.py line 105). -/
def ACCESS_TOKEN_EXPIRE_MINUTES : Int := 60

/-- Embedding of the Python expression
`expires_delta or timedelta(minutes=ACCESS_TOKEN_EXPIRE_MINUTES)` in
`create_access_token`: Python `or` falls back to the default on every
falsy left operand, which for an optional timedelta means both `None`
and the zero delta (`timedelta(0)` is falsy); a non-zero delta,
negative ones included, is truthy and used as supplied. Deltas are in
seconds. -/
def effectiveExpiresDelta (expires_delta : Option Int) : Int :=
  match expires_delta with
  | some e => if e = 0 then ACCESS_TOKEN_EXPIRE_MINUTES * 60 else e
  | none => ACCESS_TOKEN_EXPIRE_MINUTES * 60

/-- Embedding of `create_access_token` (src/main.py lines 132-136):
copy the data, set the expiry to now plus the supplied delta (falling
back to the default of `ACCESS_TOKEN_EXPIRE_MINUTES` minutes when the
delta is absent or zero, per `effectiveExpiresDelta`), and sign with
the process secret. -/
def create_access_token (secret : String) (now : Int)
    (data : Payload) (expires_delta : Option Int) : JwtToken :=
  let expire : Int := now + effectiveExpiresDelta expires_delta
  jwtEncode { data with exp := some expire } secret

/-- Embedding of `decode_token` (src/main.py lines 139-140). -/
def decode_token (now : Int) (secret : String) (t : JwtToken) :
    Except JWTError Payload :=
  jwtDecode now secret t

/-- The single undifferentiated invalid-token error surfaced by the
token-verification step (`cred_exc` in the source). -/
inductive TokenInvalidError where
  | tokenInvalid
deriving DecidableEq, Repr

/-- Embedding of the token-verification portion of `get_current_user`
(src/main.py lines 192-198): decode the token, read the `sub` claim,
and reject when decoding raises or when the subject is falsy (absent
or the empty string); all failures collapse into the same error. The
subsequent database lookup is the excluded collaborator and is not
part of this operation. -/
def verify_token (now : Int) (secret : String) (t : JwtToken) :
    Except TokenInvalidError String :=
  match decode_token now secret t with
  | .error _ => .error .tokenInvalid
  | .ok payload =>
    match payload.sub with
    | none => .error .tokenInvalid
    | some email => if email = "" then .error .tokenInvalid else .ok email

/-- Embedding of the module-level initialisation of `JWT_SECRET`
(src/main.py lines 99-102): take the environment value when it is
present and non-empty (Python truthiness), otherwise fall back to a
freshly generated random value (the value `os.urandom(48).hex()`
produced, passed here as the explicit parameter `fresh`). -/
def initJwtSecret (env : Option String) (fresh : String) : String :=
  match env with
  | some s => if s = "" then fresh else s
  | none => fresh

/-- The expiry claim embedded in a token, if any. -/
def tokenExpiry : JwtToken → Option Int
  | .malformed _ => none
  | .signed p _ => p.exp

/-- Spec-side characterisation of when token verification is rejected,
transcribed from the (amended) spec words: the encoding is malformed,
the signature does not verify against the current secret, the embedded
expiry is at or before the current time, or the subject field is
absent or empty. Stated separately from the source-derived
`verify_token` so the two can be compared. -/
def specTokenRejected (now : Int) (secret : String) (t : JwtToken) : Prop :=
  match t with
  | .malformed _ => True
  | .signed p s =>
      s ≠ secret ∨ (∃ e, p.exp = some e ∧ e ≤ now) ∨
        p.sub = none ∨ p.sub = some ""

end LGD

namespace LGD

/-! ## Theorems -/

/-- C1: for every non-empty password p (and every bcrypt core and every
salt drawn for the hash), hashing p succeeds and verifying p against
the produced credential returns true. -/
theorem verify_of_hash_succeeds
    (core : Nat → List UInt8 → List UInt8) (salt : Nat) (p : String)
    (hp : p ≠ "") :
    ∃ c, get_password_hash core salt p = .ok c ∧
      verify_password core p c = true := by
  refine ⟨.wellFormed (hashpw core ((utf8Bytes p).take 72) salt), ?_, ?_⟩
  · simp [get_password_hash, hp]
  · simp [verify_password, checkpw, hashpw]

/-- Witness for C1 at a concrete core, salt and password. -/
theorem verify_of_hash_succeeds_witness :
    ∃ c, get_password_hash sampleCore 7 "hunter2" = .ok c ∧
      verify_password sampleCore "hunter2" c = true :=
  verify_of_hash_succeeds sampleCore 7 "hunter2" (by decide)

/-- C4: both hash and verify truncate the UTF-8 bytes to the first 72
bytes, so two passwords of at least 72 bytes whose encodings agree on
the first 72 bytes each verify against a credential hashed from the
other, for every core and all salts. -/
theorem truncation_cross_verify
    (core : Nat → List UInt8 → List UInt8) (s1 s2 : Nat) (p1 p2 : String)
    (h1 : 72 ≤ (utf8Bytes p1).length) (h2 : 72 ≤ (utf8Bytes p2).length)
    (hpre : (utf8Bytes p1).take 72 = (utf8Bytes p2).take 72) :
    ∃ c1 c2, get_password_hash core s1 p1 = .ok c1 ∧
      get_password_hash core s2 p2 = .ok c2 ∧
      verify_password core p2 c1 = true ∧
      verify_password core p1 c2 = true := by
  have hp1 : p1 ≠ "" := by
    intro h
    rw [h] at h1
    simp [utf8Bytes] at h1
  have hp2 : p2 ≠ "" := by
    intro h
    rw [h] at h2
    simp [utf8Bytes] at h2
  refine ⟨.wellFormed (hashpw core ((utf8Bytes p1).take 72) s1),
    .wellFormed (hashpw core ((utf8Bytes p2).take 72) s2), ?_, ?_, ?_, ?_⟩
  · simp [get_password_hash, hp1]
  · simp [get_password_hash, hp2]
  · simp [verify_password, checkpw, hashpw, hpre]
  · simp [verify_password, checkpw, hashpw, hpre]

/-- Witness for C4: two 73-byte passwords agreeing on the first 72
bytes cross-verify. -/
theorem truncation_cross_verify_witness :
    ∃ c1 c2,
      get_password_hash sampleCore 1
        "aaaaaaaaaaaaaaaaaaaaaaaaaaaaaaaaaaaaaaaaaaaaaaaaaaaaaaaaaaaaaaaaaaaaaaaaX"
        = .ok c1 ∧
      get_password_hash sampleCore 2
        "aaaaaaaaaaaaaaaaaaaaaaaaaaaaaaaaaaaaaaaaaaaaaaaaaaaaaaaaaaaaaaaaaaaaaaaaY"
        = .ok c2 ∧
      verify_password sampleCore
        "aaaaaaaaaaaaaaaaaaaaaaaaaaaaaaaaaaaaaaaaaaaaaaaaaaaaaaaaaaaaaaaaaaaaaaaaY"
        c1 = true ∧
      verify_password sampleCore
        "aaaaaaaaaaaaaaaaaaaaaaaaaaaaaaaaaaaaaaaaaaaaaaaaaaaaaaaaaaaaaaaaaaaaaaaaX"
        c2 = true :=
  truncation_cross_verify sampleCore 1 2 _ _
    (by decide) (by decide) (by decide)

/-- C5: password verification is a total boolean function (it never
raises), and every internal failure mode, modelled by a malformed
stored credential on which the bcrypt library raises, yields false. -/
theorem verify_password_never_raises
    (core : Nat → List UInt8 → List UInt8) (plain : String)
    (cred : Credential) :
    (∃ b : Bool, verify_password core plain cred = b) ∧
    (∀ raw, cred = Credential.malformed raw →
      verify_password core plain cred = false) := by
  refine ⟨⟨verify_password core plain cred, rfl⟩, ?_⟩
  intro raw h
  rw [h]
  rfl

/-- Witness for C5 on a concrete malformed credential. -/
theorem verify_password_never_raises_witness :
    verify_password sampleCore "pw" (Credential.malformed "not-a-hash")
      = false :=
  (verify_password_never_raises sampleCore "pw"
    (Credential.malformed "not-a-hash")).2 "not-a-hash" rfl

/-- C6: hashing fails with the invalid-input error exactly on the
empty password, and on every non-empty password it returns a
credential. -/
theorem get_password_hash_error_iff_empty
    (core : Nat → List UInt8 → List UInt8) (salt : Nat)
    (password : String) :
    (get_password_hash core salt password = .error .invalidInput ↔
      password = "") ∧
    (password ≠ "" →
      ∃ c, get_password_hash core salt password = .ok c) := by
  constructor
  · constructor
    · intro h
      by_contra hne
      simp [get_password_hash, hne] at h
    · intro h
      simp [get_password_hash, h]
  · intro h
    exact ⟨.wellFormed (hashpw core ((utf8Bytes password).take 72) salt),
      by simp [get_password_hash, h]⟩

/-- Witness for C6: the empty password errors, a non-empty one does
not. -/
theorem get_password_hash_error_iff_empty_witness :
    get_password_hash sampleCore 0 "" = .error .invalidInput ∧
    ∃ c, get_password_hash sampleCore 0 "pw" = .ok c :=
  ⟨(get_password_hash_error_iff_empty sampleCore 0 "").1.mpr rfl,
   (get_password_hash_error_iff_empty sampleCore 0 "pw").2 (by decide)⟩

/-- C9: hashing the same non-empty password under two distinct salts
yields two distinct encoded credentials (the salt is embedded in the
encoding), and the password verifies against both. -/
theorem hash_distinct_salts
    (core : Nat → List UInt8 → List UInt8) (s1 s2 : Nat) (p : String)
    (hs : s1 ≠ s2) (hp : p ≠ "") :
    ∃ c1 c2, get_password_hash core s1 p = .ok c1 ∧
      get_password_hash core s2 p = .ok c2 ∧ c1 ≠ c2 ∧
      verify_password core p c1 = true ∧
      verify_password core p c2 = true := by
  refine ⟨.wellFormed (hashpw core ((utf8Bytes p).take 72) s1),
    .wellFormed (hashpw core ((utf8Bytes p).take 72) s2),
    ?_, ?_, ?_, ?_, ?_⟩
  · simp [get_password_hash, hp]
  · simp [get_password_hash, hp]
  · intro h
    apply hs
    have := congrArg (fun c => match c with
      | Credential.wellFormed b => b.salt
      | Credential.malformed _ => 0) h
    simpa [hashpw] using this
  · simp [verify_password, checkpw, hashpw]
  · simp [verify_password, checkpw, hashpw]

/-- Witness for C9 at a concrete core, two salts and a password. -/
theorem hash_distinct_salts_witness :
    ∃ c1 c2, get_password_hash sampleCore 3 "pw!" = .ok c1 ∧
      get_password_hash sampleCore 4 "pw!" = .ok c2 ∧ c1 ≠ c2 ∧
      verify_password sampleCore "pw!" c1 = true ∧
      verify_password sampleCore "pw!" c2 = true :=
  hash_distinct_salts sampleCore 3 4 "pw!" (by decide) (by decide)

/-- C2 counterexample: a token signed under the current secret, with an
expiry strictly after the current time and with a subject field
present (holding the empty string), is none of the four listed failure
modes, yet verification rejects it — so the claimed equivalence fails
as stated. -/
theorem verify_token_iff_counterexample :
    verify_token 0 "s" (JwtToken.signed ⟨some "", some 10⟩ "s")
        = .error .tokenInvalid ∧
    jwtDecode 0 "s" (JwtToken.signed ⟨some "", some 10⟩ "s")
        = .ok ⟨some "", some 10⟩ ∧
    (Payload.mk (some "") (some 10)).sub.isSome = true ∧
    ¬ ((10 : Int) ≤ 0) := by
  refine ⟨rfl, ?_, rfl, by decide⟩
  simp [jwtDecode]

/-- C2 amended: verification fails with the single invalid-token error
exactly when the encoding is malformed, the signature does not verify
against the current secret, the embedded expiry is at or before the
current time, or the subject field is absent or empty; in every other
case it succeeds. -/
theorem verify_token_error_iff (now : Int) (secret : String)
    (t : JwtToken) :
    (verify_token now secret t = .error .tokenInvalid ↔
      specTokenRejected now secret t) ∧
    (¬ specTokenRejected now secret t →
      ∃ sub, verify_token now secret t = .ok sub) := by
  cases t with
  | malformed raw =>
    exact ⟨⟨fun _ => trivial, fun _ => rfl⟩, fun h => absurd trivial h⟩
  | signed p s =>
    obtain ⟨sub, exp⟩ := p
    by_cases hsec : s = secret
    · subst hsec
      cases exp with
      | none =>
        cases sub with
        | none =>
          simp [verify_token, decode_token, jwtDecode, specTokenRejected]
        | some email =>
          by_cases hem : email = ""
          · subst hem
            simp [verify_token, decode_token, jwtDecode, specTokenRejected]
          · simp [verify_token, decode_token, jwtDecode, specTokenRejected,
              hem]
      | some e =>
        by_cases he : e ≤ now
        · cases sub with
          | none =>
            simp [verify_token, decode_token, jwtDecode, specTokenRejected,
              he]
          | some email =>
            by_cases hem : email = ""
            · subst hem
              simp [verify_token, decode_token, jwtDecode,
                specTokenRejected, he]
            · simp [verify_token, decode_token, jwtDecode,
                specTokenRejected, he, hem]
        · cases sub with
          | none =>
            simp [verify_token, decode_token, jwtDecode, specTokenRejected,
              he]
          | some email =>
            by_cases hem : email = ""
            · subst hem
              simp [verify_token, decode_token, jwtDecode,
                specTokenRejected, he]
            · simp [verify_token, decode_token, jwtDecode,
                specTokenRejected, he, hem]
    · simp [verify_token, decode_token, jwtDecode, specTokenRejected, hsec]

/-- Witness for the amended C2 at concrete tokens: a malformed token is
rejected through the equivalence, and a clean token is accepted
through the success direction. -/
theorem verify_token_error_iff_witness :
    verify_token 0 "s" (JwtToken.malformed "xx") = .error .tokenInvalid ∧
    ∃ sub, verify_token 0 "s"
      (JwtToken.signed ⟨some "alice", some 10⟩ "s") = .ok sub :=
  ⟨(verify_token_error_iff 0 "s" (JwtToken.malformed "xx")).1.mpr trivial,
   (verify_token_error_iff 0 "s"
      (JwtToken.signed ⟨some "alice", some 10⟩ "s")).2 (by
        simp [specTokenRejected])⟩

/-- C3 counterexample: issuing a token for the empty subject and
verifying it immediately under the same secret does not return the
subject; it is rejected, so the round trip fails for the subject
s = the empty string. -/
theorem issue_verify_empty_subject_concrete :
    verify_token 0 "s" (create_access_token "s" 0 ⟨some "", none⟩ none)
      = .error .tokenInvalid := by
  simp [verify_token, decode_token, jwtDecode, create_access_token,
    jwtEncode, effectiveExpiresDelta, ACCESS_TOKEN_EXPIRE_MINUTES]

/-- C3 amended: for every NON-EMPTY subject string s, issuing a token
for s and verifying it under the same secret at any time strictly
before the embedded expiry succeeds and returns exactly s. -/
theorem issue_verify_roundtrip (secret : String) (now tv : Int)
    (s : String) (d : Option Int) (hs : s ≠ "")
    (ht : tv < now + d.getD (ACCESS_TOKEN_EXPIRE_MINUTES * 60)) :
    verify_token tv secret (create_access_token secret now ⟨some s, none⟩ d)
      = .ok s := by
  have hexp : tv < now + effectiveExpiresDelta d := by
    cases d with
    | none => simpa [effectiveExpiresDelta] using ht
    | some e =>
      by_cases he : e = 0
      · subst he
        simp only [effectiveExpiresDelta, if_pos rfl,
          ACCESS_TOKEN_EXPIRE_MINUTES]
        simp only [Option.getD_some] at ht
        omega
      · simpa [effectiveExpiresDelta, he] using ht
  have hne : ¬ (now + effectiveExpiresDelta d ≤ tv) := not_le.mpr hexp
  simp [verify_token, decode_token, jwtDecode, create_access_token,
    jwtEncode, hne, hs]

/-- Witness for the amended C3 at a concrete secret, time and
subject. -/
theorem issue_verify_roundtrip_witness :
    verify_token 0 "k"
      (create_access_token "k" 0 ⟨some "alice@example.com", none⟩ none)
      = .ok "alice@example.com" :=
  issue_verify_roundtrip "k" 0 0 "alice@example.com" none
    (by decide) (by decide)

/-- C7 counterexample: a supplied time-to-live of zero is not embedded
as the expiry; `timedelta(0)` is falsy, so Python `or` falls back to
the 60-minute default and the program embeds now + 3600 instead of
now + 0. -/
theorem access_token_ttl_counterexample :
    tokenExpiry (create_access_token "s" 0 ⟨some "a", none⟩ (some 0))
      = some 3600 ∧ ((3600 : Int) ≠ 0 + 0) := by
  decide

/-- C7 amended: the default token time-to-live constant is 60 minutes,
and an issued token embeds an absolute expiry equal to the current
time plus the supplied time-to-live when that value is non-zero, and
equal to the current time plus the 60-minute default when the value is
unset or zero (Python falsiness of a zero timedelta). -/
theorem access_token_ttl (secret : String) (now : Int) (data : Payload) :
    ACCESS_TOKEN_EXPIRE_MINUTES = 60 ∧
    (∀ d : Int, d ≠ 0 →
      tokenExpiry (create_access_token secret now data (some d))
        = some (now + d)) ∧
    tokenExpiry (create_access_token secret now data (some 0))
      = some (now + ACCESS_TOKEN_EXPIRE_MINUTES * 60) ∧
    tokenExpiry (create_access_token secret now data none)
      = some (now + ACCESS_TOKEN_EXPIRE_MINUTES * 60) := by
  refine ⟨rfl, ?_, rfl, rfl⟩
  intro d hd
  simp [create_access_token, jwtEncode, tokenExpiry,
    effectiveExpiresDelta, hd]

/-- Witness for the amended C7: a non-zero supplied delta is embedded
as is, an absent one falls back to 60 minutes. -/
theorem access_token_ttl_witness :
    tokenExpiry (create_access_token "k" 0 ⟨some "a", none⟩ (some 7))
      = some (0 + 7) ∧
    tokenExpiry (create_access_token "k" 0 ⟨some "a", none⟩ none)
      = some (0 + ACCESS_TOKEN_EXPIRE_MINUTES * 60) :=
  ⟨(access_token_ttl "k" 0 ⟨some "a", none⟩).2.1 7 (by decide),
   (access_token_ttl "k" 0 ⟨some "a", none⟩).2.2.2⟩

/-- C8: the process secret is the externally supplied configuration
value when that value is present and non-empty, and otherwise the
freshly generated random value; and a token issued under the process
secret decodes successfully against that same process secret (one
immutable secret serves both issue and verify for the life of the
process). -/
theorem jwt_secret_lifecycle (env : Option String) (fresh : String) :
    (env = none → initJwtSecret env fresh = fresh) ∧
    (env = some "" → initJwtSecret env fresh = fresh) ∧
    (∀ s, env = some s → s ≠ "" → initJwtSecret env fresh = s) ∧
    (∀ (now tv : Int) (data : Payload) (d : Option Int),
      tv < now + d.getD (ACCESS_TOKEN_EXPIRE_MINUTES * 60) →
      ∃ p, decode_token tv (initJwtSecret env fresh)
        (create_access_token (initJwtSecret env fresh) now data d)
          = .ok p) := by
  refine ⟨?_, ?_, ?_, ?_⟩
  · intro h
    rw [h]
    rfl
  · intro h
    rw [h]
    rfl
  · intro s h hs
    rw [h]
    simp [initJwtSecret, hs]
  · intro now tv data d ht
    have hexp : tv < now + effectiveExpiresDelta d := by
      cases d with
      | none => simpa [effectiveExpiresDelta] using ht
      | some e =>
        by_cases he : e = 0
        · subst he
          simp only [effectiveExpiresDelta, if_pos rfl,
            ACCESS_TOKEN_EXPIRE_MINUTES]
          simp only [Option.getD_some] at ht
          omega
        · simpa [effectiveExpiresDelta, he] using ht
    have hne : ¬ (now + effectiveExpiresDelta d ≤ tv) := not_le.mpr hexp
    exact ⟨Payload.mk data.sub (some (now + effectiveExpiresDelta d)),
      by simp [decode_token, jwtDecode, create_access_token, jwtEncode, hne]⟩

/-- Witness for C8: a supplied secret is used as is, a missing one
falls back to the fresh value, and issue-then-decode succeeds under
the resulting process secret. -/
theorem jwt_secret_lifecycle_witness :
    initJwtSecret (some "cfg") "rnd" = "cfg" ∧
    initJwtSecret none "rnd" = "rnd" ∧
    ∃ p, decode_token 0 (initJwtSecret (some "cfg") "rnd")
      (create_access_token (initJwtSecret (some "cfg") "rnd") 0
        ⟨some "a", none⟩ none) = .ok p :=
  ⟨(jwt_secret_lifecycle (some "cfg") "rnd").2.2.1 "cfg" rfl (by decide),
   (jwt_secret_lifecycle none "rnd").1 rfl,
   (jwt_secret_lifecycle (some "cfg") "rnd").2.2.2 0 0 ⟨some "a", none⟩
     none (by decide)⟩

/-- C10: a token issued for the empty-string subject decodes
successfully (its signature verifies and its expiry is in the future),
yet verification rejects it with the same invalid-token error, exactly
as it rejects a token whose subject field is absent. -/
theorem issue_verify_empty_subject_rejected (secret : String)
    (now tv : Int) (d : Option Int)
    (ht : tv < now + effectiveExpiresDelta d) :
    decode_token tv secret (create_access_token secret now ⟨some "", none⟩ d)
      = .ok ⟨some "", some (now + effectiveExpiresDelta d)⟩ ∧
    verify_token tv secret (create_access_token secret now ⟨some "", none⟩ d)
      = .error .tokenInvalid ∧
    verify_token tv secret (JwtToken.signed
      ⟨none, some (now + effectiveExpiresDelta d)⟩ secret)
      = .error .tokenInvalid := by
  have hne : ¬ (now + effectiveExpiresDelta d ≤ tv) := not_le.mpr ht
  refine ⟨?_, ?_, ?_⟩
  · simp [decode_token, jwtDecode, create_access_token, jwtEncode, hne]
  · simp [verify_token, decode_token, jwtDecode, create_access_token,
      jwtEncode, hne]
  · simp [verify_token, decode_token, jwtDecode, hne]

/-- Witness for C10 at a concrete secret and time. -/
theorem issue_verify_empty_subject_rejected_witness :
    verify_token 0 "k" (create_access_token "k" 0 ⟨some "", none⟩ none)
      = .error .tokenInvalid :=
  (issue_verify_empty_subject_rejected "k" 0 0 none (by decide)).2.1

end LGD
